import Mathlib

/-
Verification development for the Job Cracker study-kit generator.

The embedding below translates the orchestration core of the source:
  - src/types.ts                 : the data model (Subject, MCQQuestion, MCQBatch,
                                   Flashcard, AppState, ...)
  - src/services/geminiService.ts: the gateway wrappers (extractOCRAndSubject,
                                   generateMasterNote, generateSummary,
                                   generateMCQBatch, generateFlashcards,
                                   generateMoreBonus)
  - src/unnamed/part_000         : the App component's handlers (handleGenerate,
                                   handleMoreBonus, handleGenerateMoreMCQs,
                                   handleFileUpload, the answer-click handler,
                                   and the small UI state transitions)

Each gateway call is abstracted by its outcome: a value of type
Except JsError α standing for the settled promise of the underlying
ai.models.generateContent call (plus JSON parsing, whose failure is also a
thrown JsError).  The service functions are then translated line by line
from geminiService.ts over these outcomes, and the App handlers are
translated from part_000 over the service functions.  JavaScript records
are modelled as association lists, and the truthiness tests of the source
are reproduced where they matter (empty string is falsy).
-/

/-- Subject enum, src/types.ts lines 2-8. -/
inductive Subject where
  | BANGLA
  | ENGLISH
  | MATH
  | GK
  | UNKNOWN
deriving DecidableEq, Repr

/-- OutputLanguage enum, src/types.ts lines 10-13. -/
inductive OutputLanguage where
  | BN
  | EN
deriving DecidableEq, Repr

/-- ProcessingResult, src/types.ts lines 15-18. -/
structure ProcessingResult where
  ocrText : String
  subject : Subject
deriving DecidableEq, Repr

/-- The four option texts of an MCQ, src/types.ts lines 23-28. -/
structure Options4 where
  A : String
  B : String
  C : String
  D : String
deriving DecidableEq, Repr

/-- The type 'A' | 'B' | 'C' | 'D' of src/types.ts line 29.  Each key is one
of the four nonempty strings "A".."D"; keyString gives that string. -/
inductive AnswerKey where
  | A
  | B
  | C
  | D
deriving DecidableEq, Repr

/-- The string a given answer key denotes (the Object.entries key in the
source's options object). -/
def keyString : AnswerKey → String
  | .A => "A"
  | .B => "B"
  | .C => "C"
  | .D => "D"

/-- MCQQuestion, src/types.ts lines 20-33. -/
structure MCQQuestion where
  id : Nat
  question : String
  options : Options4
  correctAnswer : AnswerKey
  briefExplanation : String
  sourceTag : String
  covers : List String
deriving DecidableEq, Repr

/-- Flashcard, src/types.ts lines 35-38. -/
structure Flashcard where
  id : Nat
  question : String
deriving DecidableEq, Repr

/-- coverageReport of an MCQBatch, src/types.ts lines 43-47. -/
structure CoverageReport where
  usedFactsCount : Nat
  unusedFactsCount : Nat
  unusedFactsPreview : List String
deriving DecidableEq, Repr

/-- MCQBatch, src/types.ts lines 40-48. -/
structure MCQBatch where
  batchNumber : Nat
  questions : List MCQQuestion
  coverageReport : CoverageReport
deriving DecidableEq, Repr

/-- The masterNote record of AppState, src/types.ts lines 54-58. -/
structure MasterNote where
  layer1 : String
  layer2 : String
  layer3 : String
deriving DecidableEq, Repr

/-- activeTab values, src/types.ts line 63. -/
inductive ActiveTab where
  | master
  | summaryTab
  | practice
  | flashcardsTab
  | mistakes
deriving DecidableEq, Repr

/-- ExtendedAppState of src/unnamed/part_000 lines 14-16: AppState of
src/types.ts lines 50-67 plus the error slot.  userAnswers, a JS record
from question id to the chosen option key string, is modelled as an
association list read through List.lookup. -/
structure AppState where
  images : List String
  processing : Bool
  ocrResult : Option ProcessingResult
  masterNote : Option MasterNote
  summary : Option String
  mcqBatches : List MCQBatch
  flashcards : List Flashcard
  language : OutputLanguage
  activeTab : ActiveTab
  currentQuestionIndex : Nat
  userAnswers : List (Nat × String)
  examFinished : Bool
  error : Option String
deriving DecidableEq, Repr

/-- The loadingStates record, src/unnamed/part_000 lines 35-44. -/
structure LoadingStates where
  ocr : Bool
  notes : Bool
  summary : Bool
  practice : Bool
  flashcards : Bool
  clarification : Bool
  moreBonus : Bool
  morePractice : Bool
deriving DecidableEq, Repr

/-- A JavaScript error value as observed by catch blocks: it may or may not
carry a message string. -/
inductive JsError where
  | withMessage (msg : String)
  | noMessage
deriving DecidableEq, Repr

/-- The expression error?.message || fallback of part_000 line 230: an
absent or empty (falsy) message yields the fallback. -/
def jsMessageOr (e : JsError) (fallback : String) : String :=
  match e with
  | .withMessage m => if m = "" then fallback else m
  | .noMessage => fallback

/-- The expression opt || dflt for an optional string whose absent and
empty cases both yield dflt (JS falsiness of "" and undefined). -/
def jsStringOr (t : Option String) (dflt : String) : String :=
  match t with
  | some s => if s = "" then dflt else s
  | none => dflt

/-- Parsed JSON fields of the extraction response, geminiService.ts
lines 43-47: data.ocrText and data.subject may each be absent. -/
structure ExtractionJson where
  ocrText : Option String
  subject : Option Subject
deriving DecidableEq, Repr

/-- Parsed JSON fields of the MCQ response after the root selection of
geminiService.ts line 193 (data.practice || data) and the coverage-report
fallback chain of line 196: the question list and the coverage report may
each be absent. -/
structure MCQJson where
  questions : Option (List MCQQuestion)
  coverageReport : Option CoverageReport
deriving DecidableEq, Repr

/-- Return value of generateMCQBatch, geminiService.ts lines 194-197. -/
structure MCQResult where
  questions : List MCQQuestion
  coverageReport : CoverageReport
deriving DecidableEq, Repr

/-- The default coverage report of geminiService.ts line 196. -/
def defaultCoverage : CoverageReport :=
  { usedFactsCount := 0, unusedFactsCount := 0, unusedFactsPreview := [] }

/-- extractOCRAndSubject, geminiService.ts lines 20-52: on a settled
gateway/parse outcome, success fills defaults for missing fields
(data.ocrText || '', data.subject || UNKNOWN, lines 44-47) and failure is
rethrown (lines 48-51). -/
def extractOCRAndSubject (gw : Except JsError ExtractionJson) :
    Except JsError ProcessingResult :=
  match gw with
  | .ok j => .ok { ocrText := j.ocrText.getD "", subject := j.subject.getD Subject.UNKNOWN }
  | .error e => .error e

/-- generateMasterNote, geminiService.ts lines 83-124: returns the parsed
three-layer note, rethrowing any gateway or parse failure (lines 120-123). -/
def generateMasterNote (gw : Except JsError MasterNote) :
    Except JsError MasterNote :=
  match gw with
  | .ok note => .ok note
  | .error e => .error e

/-- generateSummary, geminiService.ts lines 155-169: success returns
response.text || '' (line 164); ANY failure is caught and resolved with the
literal string "Summary generation failed." (lines 165-168) — the promise
never rejects. -/
def generateSummary (gw : Except JsError (Option String)) :
    Except JsError String :=
  match gw with
  | .ok t => .ok (jsStringOr t "")
  | .error _ => .ok "Summary generation failed."

/-- generateMoreBonus, geminiService.ts lines 126-153: success returns
response.text || '' (line 148); failure is rethrown (lines 149-152).  (The
prompt also embeds existingBonus.substring(0, 500), line 133; the prompt
text itself is opaque payload here.) -/
def generateMoreBonus (gw : Except JsError (Option String)) :
    Except JsError String :=
  match gw with
  | .ok t => .ok (jsStringOr t "")
  | .error e => .error e

/-- generateMCQBatch, geminiService.ts lines 171-202: success fills
defaults for missing fields (root.questions || [], the coverage-report
chain || default, lines 194-197); failure is rethrown (lines 198-201). -/
def generateMCQBatch (gw : Except JsError MCQJson) : Except JsError MCQResult :=
  match gw with
  | .ok j => .ok { questions := j.questions.getD [],
                   coverageReport := j.coverageReport.getD defaultCoverage }
  | .error e => .error e

/-- generateFlashcards, geminiService.ts lines 204-223: success returns
data.cards || [] (line 218); ANY failure is caught and resolved with []
(lines 219-222) — the promise never rejects. -/
def generateFlashcards (gw : Except JsError (Option (List Flashcard))) :
    Except JsError (List Flashcard) :=
  match gw with
  | .ok cards => .ok (cards.getD [])
  | .error _ => .ok []

/-- The settled outcomes of the five gateway calls a generation run can
issue (extraction plus the four derivations), each given as the raw
parsed-JSON/text outcome consumed by the matching service function. -/
structure GatewayOutcomes where
  extraction : Except JsError ExtractionJson
  note : Except JsError MasterNote
  summaryText : Except JsError (Option String)
  practice : Except JsError MCQJson
  flashcardsData : Except JsError (Option (List Flashcard))

/-- The four derivation calls handleGenerate can dispatch after extraction
succeeds (part_000 lines 197-223). -/
inductive DerivKind where
  | note
  | summary
  | practice
  | flashcards
deriving DecidableEq, Repr

/-- The initial useState value, part_000 lines 19-33. -/
def initState : AppState :=
  { images := [], processing := false, ocrResult := none, masterNote := none,
    summary := none, mcqBatches := [], flashcards := [],
    language := OutputLanguage.BN, activeTab := ActiveTab.master,
    currentQuestionIndex := 0, userAnswers := [], examFinished := false,
    error := none }

/-- The initial loadingStates value, part_000 lines 35-44. -/
def initLoading : LoadingStates :=
  { ocr := false, notes := false, summary := false, practice := false,
    flashcards := false, clarification := false, moreBonus := false,
    morePractice := false }

/-- The loadingStates value set at the start of a run, part_000 line 190. -/
def startLoading : LoadingStates :=
  { ocr := true, notes := true, summary := true, practice := true,
    flashcards := true, clarification := false, moreBonus := false,
    morePractice := false }

/-- The loadingStates value set when extraction fails, part_000 line 232. -/
def clearedLoading : LoadingStates :=
  { ocr := false, notes := false, summary := false, practice := false,
    flashcards := false, clarification := false, moreBonus := false,
    morePractice := false }

/-- The state reset at the start of handleGenerate, part_000 lines 176-188. -/
def resetForRun (st : AppState) : AppState :=
  { st with
    processing := true, error := none, ocrResult := none,
    mcqBatches := [], flashcards := [], masterNote := none, summary := none,
    examFinished := false, userAnswers := [], currentQuestionIndex := 0 }

/-- Settlement of the master-note derivation, part_000 lines 197-202: the
then-branch stores the note and clears the flag; the catch-branch only
clears the flag. -/
def settleNote (r : Except JsError MasterNote) (st : AppState)
    (ls : LoadingStates) : AppState × LoadingStates :=
  match r with
  | .ok note => ({ st with masterNote := some note }, { ls with notes := false })
  | .error _ => (st, { ls with notes := false })

/-- Settlement of the summary derivation, part_000 lines 204-209. -/
def settleSummary (r : Except JsError String) (st : AppState)
    (ls : LoadingStates) : AppState × LoadingStates :=
  match r with
  | .ok s => ({ st with summary := some s }, { ls with summary := false })
  | .error _ => (st, { ls with summary := false })

/-- Settlement of the first-batch MCQ derivation, part_000 lines 211-216:
the then-branch replaces mcqBatches with the single batch numbered 1. -/
def settlePractice (r : Except JsError MCQResult) (st : AppState)
    (ls : LoadingStates) : AppState × LoadingStates :=
  match r with
  | .ok b => ({ st with
        mcqBatches := [{ batchNumber := 1, questions := b.questions,
                         coverageReport := b.coverageReport }] },
      { ls with practice := false })
  | .error _ => (st, { ls with practice := false })

/-- Settlement of the flashcards derivation, part_000 lines 218-223. -/
def settleFlashcards (r : Except JsError (List Flashcard)) (st : AppState)
    (ls : LoadingStates) : AppState × LoadingStates :=
  match r with
  | .ok cards => ({ st with flashcards := cards }, { ls with flashcards := false })
  | .error _ => (st, { ls with flashcards := false })

/-- Result of one full generation run: the state and flags after every
dispatched call has settled, the activeBatchIndex, and the list of
derivation calls that were issued. -/
structure GenRun where
  state : AppState
  loading : LoadingStates
  activeBatchIndex : Nat
  dispatched : List DerivKind
deriving Repr

/-- handleGenerate, part_000 lines 174-234, run to quiescence.  The guard
of line 175 returns unchanged on an empty upload set.  Otherwise the state
is reset (lines 176-189), the flags set (line 190), and the extraction is
awaited: on failure the catch of lines 225-233 sets the error message and
clears every flag, and no derivation is dispatched; on success the result
is stored (lines 194-195) and the four derivations are dispatched
(lines 197-223), each settling into its own disjoint slice of the state
(the four writes commute, so they are applied here in program order). -/
def handleGenerate (st0 : AppState) (ls0 : LoadingStates) (abi0 : Nat)
    (g : GatewayOutcomes) : GenRun :=
  if st0.images.length = 0 then
    { state := st0, loading := ls0, activeBatchIndex := abi0, dispatched := [] }
  else
    let st1 := resetForRun st0
    match extractOCRAndSubject g.extraction with
    | .error e =>
        { state :=
            { st1 with
              processing := false,
              error := some (jsMessageOr e
                "Analysis failed. The images might be blurry or the server is busy.") },
          loading := clearedLoading, activeBatchIndex := 0, dispatched := [] }
    | .ok ocrResult =>
        let st2 := { st1 with ocrResult := some ocrResult, processing := false }
        let ls2 := { startLoading with ocr := false }
        let p3 := settleNote (generateMasterNote g.note) st2 ls2
        let p4 := settleSummary (generateSummary g.summaryText) p3.1 p3.2
        let p5 := settlePractice (generateMCQBatch g.practice) p4.1 p4.2
        let p6 := settleFlashcards (generateFlashcards g.flashcardsData) p5.1 p5.2
        { state := p6.1, loading := p6.2, activeBatchIndex := 0,
          dispatched := [DerivKind.note, DerivKind.summary, DerivKind.practice,
                         DerivKind.flashcards] }

/-- Result of handleMoreBonus: new state, flags, and the transient alert
message if one was shown. -/
structure BonusRun where
  state : AppState
  loading : LoadingStates
  alert : Option String
deriving Repr

/-- handleMoreBonus, part_000 lines 89-110.  The guard of line 90 returns
if ocrResult or masterNote is null.  On success the functional update of
lines 94-103 re-checks masterNote and appends the new content to layer3
with a separating blank line; on failure lines 104-106 alert and leave the
state untouched; the finally of lines 107-109 clears the flag. -/
def handleMoreBonus (st : AppState) (ls : LoadingStates)
    (gw : Except JsError (Option String)) : BonusRun :=
  if st.ocrResult.isNone || st.masterNote.isNone then
    { state := st, loading := ls, alert := none }
  else
    match generateMoreBonus gw with
    | .ok moreContent =>
        match st.masterNote with
        | none => { state := st, loading := { ls with moreBonus := false }, alert := none }
        | some mn =>
            { state :=
                { st with
                  masterNote := some
                    { layer1 := mn.layer1, layer2 := mn.layer2,
                      layer3 := mn.layer3 ++ "\n\n" ++ moreContent } },
              loading := { ls with moreBonus := false }, alert := none }
    | .error _ =>
        { state := st, loading := { ls with moreBonus := false },
          alert := some "Failed to generate more bonus content." }

/-- The duplication-avoidance hint of part_000 line 117: all previously
generated question texts joined with " | ". -/
def prevContext (batches : List MCQBatch) : String :=
  String.intercalate " | " (batches.flatMap (fun b => b.questions.map (fun q => q.question)))

/-- Result of handleGenerateMoreMCQs: new state, flags, activeBatchIndex,
the alert shown if any, and the (batchNumber, prevContext) pair passed to
the gateway call if one was issued. -/
structure MoreMCQRun where
  state : AppState
  loading : LoadingStates
  activeBatchIndex : Nat
  alert : Option String
  request : Option (Nat × String)
deriving Repr

/-- handleGenerateMoreMCQs, part_000 lines 112-143.  The guard of line 113
returns if ocrResult is null.  nextBatchNum and prevContext are computed
from the dispatch-time state (lines 116-117).  A successful result with at
least one question appends the new batch, resets currentQuestionIndex,
examFinished and userAnswers, and points activeBatchIndex at the appended
batch (lines 120-133); zero questions only alert (lines 134-135); a thrown
failure alerts (lines 137-139); the finally of lines 140-142 clears the
flag. -/
def handleGenerateMoreMCQs (st : AppState) (ls : LoadingStates) (abi : Nat)
    (gw : Except JsError MCQJson) : MoreMCQRun :=
  if st.ocrResult.isNone then
    { state := st, loading := ls, activeBatchIndex := abi, alert := none,
      request := none }
  else
    let nextBatchNum := st.mcqBatches.length + 1
    let ctx := prevContext st.mcqBatches
    match generateMCQBatch gw with
    | .ok result =>
        if result.questions.length > 0 then
          { state :=
              { st with
                mcqBatches := st.mcqBatches ++
                  [{ batchNumber := nextBatchNum, questions := result.questions,
                     coverageReport := result.coverageReport }],
                currentQuestionIndex := 0, examFinished := false,
                userAnswers := [] },
            loading := { ls with morePractice := false },
            activeBatchIndex := st.mcqBatches.length,
            alert := none, request := some (nextBatchNum, ctx) }
        else
          { state := st, loading := { ls with morePractice := false },
            activeBatchIndex := abi,
            alert := some "No more unique questions could be generated for this text.",
            request := some (nextBatchNum, ctx) }
    | .error _ =>
        { state := st, loading := { ls with morePractice := false },
          activeBatchIndex := abi,
          alert := some "Failed to generate more practice questions.",
          request := some (nextBatchNum, ctx) }

/-- files.slice(0, e) for an Int bound e, with the JavaScript semantics at a
negative bound (counting from the end). -/
def jsSliceTo (xs : List α) (e : Int) : List α :=
  if e < 0 then xs.take (xs.length - e.natAbs) else xs.take e.toNat

/-- Result of handleFileUpload: new state and the alert shown if any. -/
structure UploadRun where
  state : AppState
  alert : Option String
deriving Repr

/-- handleFileUpload, part_000 lines 151-168.  Empty selections return
(line 153); the selection is truncated to the remaining slots of the
5-image bound (lines 154-156); a selection arriving at capacity is a no-op
with the max-reached alert (lines 157-160); otherwise the (possibly
truncated) files are converted and appended — a conversion failure, modelled
by the conversionOk flag, alerts and leaves the state untouched
(lines 161-166). -/
def handleFileUpload (st : AppState) (files : List String)
    (conversionOk : Bool) : UploadRun :=
  if files.length = 0 then { state := st, alert := none }
  else
    let currentCount := st.images.length
    let remainingSlots : Int := 5 - (currentCount : Int)
    let filesToProcess := jsSliceTo files remainingSlots
    if filesToProcess.length = 0 ∧ currentCount ≥ 5 then
      { state := st, alert := some "Maximum 5 photos allowed." }
    else if conversionOk then
      { state := { st with error := none, images := st.images ++ filesToProcess },
        alert := none }
    else
      { state := st, alert := some "Failed to load images." }

/-- The truthiness test !!state.userAnswers[qId] of part_000 line 609: true
exactly when an entry exists and its string is nonempty (every key the UI
ever stores is one of the nonempty strings "A".."D"). -/
def answered (ua : List (Nat × String)) (qId : Nat) : Bool :=
  match ua.lookup qId with
  | some s => s != ""
  | none => false

/-- The record update { ...s.userAnswers, [qId]: key } of part_000
line 621, on the association-list model. -/
def jsRecordSet (m : List (Nat × String)) (k : Nat) (v : String) :
    List (Nat × String) :=
  (k, v) :: m.filter (fun p => p.1 != k)

/-- A click on an option button of the current question, part_000
lines 607-626: the button carries disabled={answered} (line 621), so when
the question already has a truthy recorded answer the click fires no
handler and the state is unchanged; otherwise the onClick of line 621
records the chosen key. -/
def handleAnswerClick (st : AppState) (qId : Nat) (k : AnswerKey) : AppState :=
  if answered st.userAnswers qId then st
  else { st with userAnswers := jsRecordSet st.userAnswers qId (keyString k) }

/-- One user- or completion-triggered transition of the App component.
generate, moreMCQs, moreBonus and upload carry the settled outcomes of the
gateway calls (and the conversion flag) they consume. -/
inductive SessionOp where
  | generate (g : GatewayOutcomes)
  | moreMCQs (gw : Except JsError MCQJson)
  | moreBonus (gw : Except JsError (Option String))
  | upload (files : List String) (ok : Bool)
  | removeImage (i : Nat)
  | answerClick (qId : Nat) (k : AnswerKey)
  | selectBatch (i : Nat)
  | startNew
  | clearImages
  | nextQuestion
  | prevQuestion
  | finishExam
  | setTab (t : ActiveTab)
  | toggleLanguage

/-- The App component's mutable state: the ExtendedAppState, the
loadingStates record, and the activeBatchIndex (part_000 lines 19-49). -/
structure Session where
  state : AppState
  loading : LoadingStates
  activeBatchIndex : Nat
deriving Repr

/-- currentBatch?.questions?.length || 0, part_000 lines 344-345. -/
def totalInBatch (s : Session) : Nat :=
  match s.state.mcqBatches.get? s.activeBatchIndex with
  | some b => b.questions.length
  | none => 0

/-- One step of the App component.  The handler cases call the definitions
above; the small inline setState calls are translated from the indicated
lines of part_000: selectBatch (line 579), startNew (line 501), clearImages
(line 418), nextQuestion (lines 633-634, shown only below the last index),
prevQuestion (line 629, disabled at 0), finishExam (line 636), setTab
(line 358), toggleLanguage (line 361), removeImage (lines 170-172). -/
def step (s : Session) : SessionOp → Session
  | .generate g =>
      let r := handleGenerate s.state s.loading s.activeBatchIndex g
      { state := r.state, loading := r.loading, activeBatchIndex := r.activeBatchIndex }
  | .moreMCQs gw =>
      let r := handleGenerateMoreMCQs s.state s.loading s.activeBatchIndex gw
      { state := r.state, loading := r.loading, activeBatchIndex := r.activeBatchIndex }
  | .moreBonus gw =>
      let r := handleMoreBonus s.state s.loading gw
      { state := r.state, loading := r.loading, activeBatchIndex := s.activeBatchIndex }
  | .upload files ok =>
      { state := (handleFileUpload s.state files ok).state,
        loading := s.loading, activeBatchIndex := s.activeBatchIndex }
  | .removeImage i =>
      { s with state := { s.state with images := s.state.images.eraseIdx i } }
  | .answerClick q k => { s with state := handleAnswerClick s.state q k }
  | .selectBatch i =>
      { state := { s.state with currentQuestionIndex := 0 },
        loading := s.loading, activeBatchIndex := i }
  | .startNew =>
      { s with state := { s.state with ocrResult := none, images := [], error := none } }
  | .clearImages =>
      { s with state := { s.state with error := none, images := [] } }
  | .nextQuestion =>
      if s.state.currentQuestionIndex < totalInBatch s - 1 then
        { s with state := { s.state with
            currentQuestionIndex := s.state.currentQuestionIndex + 1 } }
      else s
  | .prevQuestion =>
      if s.state.currentQuestionIndex = 0 then s
      else
        { s with state := { s.state with
            currentQuestionIndex := s.state.currentQuestionIndex - 1 } }
  | .finishExam => { s with state := { s.state with examFinished := true } }
  | .setTab t => { s with state := { s.state with activeTab := t } }
  | .toggleLanguage =>
      { s with state := { s.state with
          language := match s.state.language with
            | .BN => OutputLanguage.EN
            | .EN => OutputLanguage.BN } }

/-- The freshly mounted App component. -/
def initSession : Session :=
  { state := initState, loading := initLoading, activeBatchIndex := 0 }

/-- The session after a sequence of transitions from the initial state. -/
def runSession (ops : List SessionOp) : Session :=
  ops.foldl step initSession

/-- The batch numbers of a batch list in order. -/
def batchNumbers (bs : List MCQBatch) : List Nat :=
  bs.map (fun b => b.batchNumber)

/-
Interleaving model for run staleness.  handleGenerate dispatches its
master-note call with a bare promise chain (part_000 lines 197-202):

    generateMasterNote(ocrResult.ocrText, ocrResult.subject, state.language)
      .then(note => { setState(prev => ({ ...prev, masterNote: note })); ... })

Nothing in the component records which run a dispatched promise belongs to,
and nothing cancels the promise when a new run starts, so the completion
handler applies whenever the promise resolves — also after a later run has
reset the state.  The model below keeps just the fields that staleness can
affect: how many runs have started, the note slot, and its loading flag.
An event is either the start of a run whose extraction succeeded (which
resets the slot and dispatches a fresh note call, part_000 lines 176-197)
or the resolution of the note call dispatched by run runId.
-/

/-- The slice of component state touched by run starts and master-note
completions. -/
structure RaceState where
  runsStarted : Nat
  masterNote : Option MasterNote
  notesLoading : Bool
deriving DecidableEq, Repr

/-- An observable event in the interleaving of generation runs with
master-note completions. -/
inductive RaceEvent where
  | startRun
  | noteResolved (runId : Nat) (note : MasterNote)
deriving DecidableEq, Repr

/-- The source's handling of each event: a run start resets the note slot
and raises the flag (part_000 lines 176-190); a note resolution stores the
note and clears the flag unconditionally — the runId is not consulted,
because the source keeps no run tag (part_000 lines 197-202). -/
def raceStep (s : RaceState) : RaceEvent → RaceState
  | .startRun =>
      { runsStarted := s.runsStarted + 1, masterNote := none, notesLoading := true }
  | .noteResolved _ note =>
      { s with masterNote := some note, notesLoading := false }

/-- The component state after a sequence of events from a fresh mount. -/
def raceRun (evs : List RaceEvent) : RaceState :=
  evs.foldl raceStep { runsStarted := 0, masterNote := none, notesLoading := false }

/-- Admissibility of an event sequence: run k dispatches one note call
tagged k, and a resolution consumes exactly one pending dispatched call. -/
def validRaceFrom (started : Nat) (pending : List Nat) : List RaceEvent → Bool
  | [] => true
  | RaceEvent.startRun :: rest =>
      validRaceFrom (started + 1) ((started + 1) :: pending) rest
  | RaceEvent.noteResolved r _ :: rest =>
      pending.contains r && validRaceFrom started (pending.erase r) rest

/-- Admissibility from a fresh mount. -/
def validRace (evs : List RaceEvent) : Bool := validRaceFrom 0 [] evs

/-- The note produced by the superseded first run in the staleness trace. -/
def staleNote : MasterNote :=
  { layer1 := "run1 layer1", layer2 := "run1 layer2", layer3 := "run1 bonus" }

/-- The note produced by the current second run in the staleness trace. -/
def freshNote : MasterNote :=
  { layer1 := "run2 layer1", layer2 := "run2 layer2", layer3 := "run2 bonus" }

/-- The staleness trace: run 1 starts, run 2 starts, run 2's note resolves,
then run 1's slow note resolves last. -/
def staleTrace : List RaceEvent :=
  [RaceEvent.startRun, RaceEvent.startRun,
   RaceEvent.noteResolved 2 freshNote, RaceEvent.noteResolved 1 staleNote]

/-
Concrete inputs used by the closed witness and counterexample theorems.
-/

/-- A sample MCQ question. -/
def sampleQuestion : MCQQuestion :=
  { id := 1, question := "What is 2+2?",
    options := { A := "3", B := "4", C := "5", D := "6" },
    correctAnswer := AnswerKey.B, briefExplanation := "Basic arithmetic.",
    sourceTag := "page 1", covers := ["addition"] }

/-- A sample coverage report. -/
def sampleCoverage : CoverageReport :=
  { usedFactsCount := 1, unusedFactsCount := 2, unusedFactsPreview := ["fact"] }

/-- A sample flashcard. -/
def sampleCard : Flashcard := { id := 1, question := "Define addition." }

/-- A sample master note. -/
def sampleNote : MasterNote :=
  { layer1 := "notes l1", layer2 := "notes l2", layer3 := "notes l3" }

/-- A state holding one uploaded image, as at the moment the user triggers
a run. -/
def readyState : AppState := { initState with images := ["data:image/jpeg;base64,AAAA"] }

/-- Gateway outcomes in which every call fails with a transport error. -/
def allFailOutcomes : GatewayOutcomes :=
  { extraction := Except.error (JsError.withMessage "network down"),
    note := Except.error JsError.noMessage,
    summaryText := Except.error JsError.noMessage,
    practice := Except.error JsError.noMessage,
    flashcardsData := Except.error JsError.noMessage }

/-- Gateway outcomes for the C2 scenario: extraction succeeds, the summary
call fails with a transport error, and the other three derivations
succeed. -/
def summaryFailOutcomes : GatewayOutcomes :=
  { extraction := Except.ok { ocrText := some "page text", subject := some Subject.MATH },
    note := Except.ok sampleNote,
    summaryText := Except.error (JsError.withMessage "transport failure"),
    practice := Except.ok { questions := some [sampleQuestion], coverageReport := some sampleCoverage },
    flashcardsData := Except.ok (some [sampleCard]) }

/-- A post-run state with an extraction result, a master note, and one
generated batch, as left by a fully successful first run. -/
def sessionState1 : AppState :=
  { readyState with
    ocrResult := some { ocrText := "page text", subject := Subject.MATH },
    masterNote := some sampleNote,
    summary := some "a summary",
    mcqBatches := [{ batchNumber := 1, questions := [sampleQuestion],
                     coverageReport := sampleCoverage }],
    flashcards := [sampleCard] }

/-- A second sample MCQ question, used for an extension batch. -/
def sampleQuestion2 : MCQQuestion :=
  { id := 2, question := "What is 3+3?",
    options := { A := "5", B := "7", C := "6", D := "9" },
    correctAnswer := AnswerKey.C, briefExplanation := "Basic arithmetic.",
    sourceTag := "page 2", covers := ["addition"] }

/-- A state whose upload set is at the 5-image capacity. -/
def fullImagesState : AppState :=
  { initState with images := ["i1", "i2", "i3", "i4", "i5"] }

/-- A state in which question 1 already has the recorded answer "B". -/
def answeredState : AppState :=
  { sessionState1 with userAnswers := [(1, "B")] }

/-
Helper lemmas: which slices of the state each handler can touch.
-/

/-- settleNote leaves the image list unchanged. -/
theorem settleNote_images (r : Except JsError MasterNote) (st : AppState)
    (ls : LoadingStates) : (settleNote r st ls).1.images = st.images := by
  cases r <;> rfl

/-- settleSummary leaves the image list unchanged. -/
theorem settleSummary_images (r : Except JsError String) (st : AppState)
    (ls : LoadingStates) : (settleSummary r st ls).1.images = st.images := by
  cases r <;> rfl

/-- settlePractice leaves the image list unchanged. -/
theorem settlePractice_images (r : Except JsError MCQResult) (st : AppState)
    (ls : LoadingStates) : (settlePractice r st ls).1.images = st.images := by
  cases r <;> rfl

/-- settleFlashcards leaves the image list unchanged. -/
theorem settleFlashcards_images (r : Except JsError (List Flashcard)) (st : AppState)
    (ls : LoadingStates) : (settleFlashcards r st ls).1.images = st.images := by
  cases r <;> rfl

/-- settleNote leaves the batch list unchanged. -/
theorem settleNote_mcqBatches (r : Except JsError MasterNote) (st : AppState)
    (ls : LoadingStates) : (settleNote r st ls).1.mcqBatches = st.mcqBatches := by
  cases r <;> rfl

/-- settleSummary leaves the batch list unchanged. -/
theorem settleSummary_mcqBatches (r : Except JsError String) (st : AppState)
    (ls : LoadingStates) : (settleSummary r st ls).1.mcqBatches = st.mcqBatches := by
  cases r <;> rfl

/-- settleFlashcards leaves the batch list unchanged. -/
theorem settleFlashcards_mcqBatches (r : Except JsError (List Flashcard)) (st : AppState)
    (ls : LoadingStates) : (settleFlashcards r st ls).1.mcqBatches = st.mcqBatches := by
  cases r <;> rfl

/-- A generation run never touches the image list. -/
theorem handleGenerate_images (st0 : AppState) (ls0 : LoadingStates) (abi0 : Nat)
    (g : GatewayOutcomes) :
    (handleGenerate st0 ls0 abi0 g).state.images = st0.images := by
  unfold handleGenerate
  split
  · rfl
  · split
    · rfl
    · rw [settleFlashcards_images, settlePractice_images, settleSummary_images,
        settleNote_images]
      rfl

/-- After a generation run the batch list is the previous one (no run
performed), empty, or the single batch numbered 1. -/
theorem handleGenerate_mcqBatches (st0 : AppState) (ls0 : LoadingStates) (abi0 : Nat)
    (g : GatewayOutcomes) :
    (handleGenerate st0 ls0 abi0 g).state.mcqBatches = st0.mcqBatches ∨
    (handleGenerate st0 ls0 abi0 g).state.mcqBatches = [] ∨
    ∃ qs cr, (handleGenerate st0 ls0 abi0 g).state.mcqBatches
      = [{ batchNumber := 1, questions := qs, coverageReport := cr }] := by
  unfold handleGenerate
  split
  · exact Or.inl rfl
  · split
    · exact Or.inr (Or.inl rfl)
    · rw [settleFlashcards_mcqBatches]
      cases hpr : generateMCQBatch g.practice with
      | ok b =>
          refine Or.inr (Or.inr ⟨b.questions, b.coverageReport, ?_⟩)
          simp [settlePractice, hpr]
      | error e =>
          refine Or.inr (Or.inl ?_)
          simp [settlePractice, hpr, settleSummary_mcqBatches, settleNote_mcqBatches,
            resetForRun]

/-- A bonus extension never touches the batch list. -/
theorem handleMoreBonus_mcqBatches (st : AppState) (ls : LoadingStates)
    (gw : Except JsError (Option String)) :
    (handleMoreBonus st ls gw).state.mcqBatches = st.mcqBatches := by
  unfold handleMoreBonus
  split
  · rfl
  · split
    · split <;> rfl
    · rfl

/-- A bonus extension never touches the image list. -/
theorem handleMoreBonus_images (st : AppState) (ls : LoadingStates)
    (gw : Except JsError (Option String)) :
    (handleMoreBonus st ls gw).state.images = st.images := by
  unfold handleMoreBonus
  split
  · rfl
  · split
    · split <;> rfl
    · rfl

/-- A batch extension either leaves the batch list unchanged or appends
exactly one batch numbered one past the current count. -/
theorem handleGenerateMoreMCQs_mcqBatches (st : AppState) (ls : LoadingStates)
    (abi : Nat) (gw : Except JsError MCQJson) :
    (handleGenerateMoreMCQs st ls abi gw).state.mcqBatches = st.mcqBatches ∨
    ∃ qs cr, (handleGenerateMoreMCQs st ls abi gw).state.mcqBatches
      = st.mcqBatches ++ [{ batchNumber := st.mcqBatches.length + 1,
                            questions := qs, coverageReport := cr }] := by
  unfold handleGenerateMoreMCQs
  split
  · exact Or.inl rfl
  · split
    · split
      · exact Or.inr ⟨_, _, rfl⟩
      · exact Or.inl rfl
    · exact Or.inl rfl

/-- A batch extension never touches the image list. -/
theorem handleGenerateMoreMCQs_images (st : AppState) (ls : LoadingStates)
    (abi : Nat) (gw : Except JsError MCQJson) :
    (handleGenerateMoreMCQs st ls abi gw).state.images = st.images := by
  unfold handleGenerateMoreMCQs
  split
  · rfl
  · split
    · split <;> rfl
    · rfl

/-- An upload never touches the batch list. -/
theorem handleFileUpload_mcqBatches (st : AppState) (files : List String)
    (ok : Bool) : (handleFileUpload st files ok).state.mcqBatches = st.mcqBatches := by
  unfold handleFileUpload
  dsimp only
  split
  · rfl
  · split <;> first | rfl | (split <;> rfl)

/-- An answer click never touches the batch list. -/
theorem handleAnswerClick_mcqBatches (st : AppState) (qId : Nat) (k : AnswerKey) :
    (handleAnswerClick st qId k).mcqBatches = st.mcqBatches := by
  unfold handleAnswerClick
  split <;> rfl

/-- An answer click never touches the image list. -/
theorem handleAnswerClick_images (st : AppState) (qId : Nat) (k : AnswerKey) :
    (handleAnswerClick st qId k).images = st.images := by
  unfold handleAnswerClick
  split <;> rfl

/-- An invariant preserved by every step holds after any op sequence. -/
theorem foldl_step_inv (P : Session → Prop)
    (hstep : ∀ s op, P s → P (step s op)) :
    ∀ (ops : List SessionOp) (s : Session), P s → P (ops.foldl step s) := by
  intro ops
  induction ops with
  | nil => intro s h; exact h
  | cons op rest ih => intro s h; exact ih (step s op) (hstep s op h)

/-- C1: for every generation run in which the extraction call fails, no
derivation call (master note, summary, MCQ batch, flashcards) is issued,
the session-level error slot holds a non-null user-facing message, every
loading flag ends cleared, and all derivable artifacts (ocrResult,
masterNote, summary, mcqBatches, flashcards) are left empty. -/
theorem c1_extraction_failure_aborts_run (st0 : AppState) (ls0 : LoadingStates)
    (abi0 : Nat) (g : GatewayOutcomes) (e : JsError)
    (hImgs : ¬ st0.images.length = 0) (hExt : g.extraction = Except.error e) :
    (handleGenerate st0 ls0 abi0 g).dispatched = [] ∧
    (handleGenerate st0 ls0 abi0 g).state.error ≠ none ∧
    (handleGenerate st0 ls0 abi0 g).loading = clearedLoading ∧
    (handleGenerate st0 ls0 abi0 g).state.ocrResult = none ∧
    (handleGenerate st0 ls0 abi0 g).state.masterNote = none ∧
    (handleGenerate st0 ls0 abi0 g).state.summary = none ∧
    (handleGenerate st0 ls0 abi0 g).state.mcqBatches = [] ∧
    (handleGenerate st0 ls0 abi0 g).state.flashcards = [] := by
  unfold handleGenerate
  rw [if_neg hImgs, hExt]
  simp [extractOCRAndSubject, resetForRun]

/-- C1 witness: the run on a one-image state whose extraction fails with a
network error aborts with a non-null error, cleared flags, and empty
artifacts. -/
theorem c1_witness :
    (¬ readyState.images.length = 0) ∧
    allFailOutcomes.extraction = Except.error (JsError.withMessage "network down") ∧
    ((handleGenerate readyState initLoading 0 allFailOutcomes).dispatched = [] ∧
     (handleGenerate readyState initLoading 0 allFailOutcomes).state.error ≠ none ∧
     (handleGenerate readyState initLoading 0 allFailOutcomes).loading = clearedLoading ∧
     (handleGenerate readyState initLoading 0 allFailOutcomes).state.ocrResult = none ∧
     (handleGenerate readyState initLoading 0 allFailOutcomes).state.masterNote = none ∧
     (handleGenerate readyState initLoading 0 allFailOutcomes).state.summary = none ∧
     (handleGenerate readyState initLoading 0 allFailOutcomes).state.mcqBatches = [] ∧
     (handleGenerate readyState initLoading 0 allFailOutcomes).state.flashcards = []) :=
  ⟨by decide, rfl,
   c1_extraction_failure_aborts_run readyState initLoading 0 allFailOutcomes
     (JsError.withMessage "network down") (by decide) rfl⟩

/-- C10: generateSummary never rejects — for every gateway outcome it
resolves with a string (on any gateway error, with the literal
"Summary generation failed."), and the orchestrator's settlement stores
that string, so after a failed summary call the summary artifact is a
non-null string. -/
theorem c10_summary_never_rejects (gw : Except JsError (Option String))
    (e : JsError) (st : AppState) (ls : LoadingStates) :
    (∃ s : String, generateSummary gw = Except.ok s ∧
      (settleSummary (generateSummary gw) st ls).1.summary = some s) ∧
    generateSummary (Except.error e) = Except.ok "Summary generation failed." := by
  constructor
  · cases gw with
    | ok t => exact ⟨jsStringOr t "", rfl, rfl⟩
    | error e2 => exact ⟨"Summary generation failed.", rfl, rfl⟩
  · rfl

/-- C9: recording an answer for a question that already has a recorded
answer is a no-op — the state is unchanged and the previously recorded
option survives any later answer attempt on that question. -/
theorem c9_answer_at_most_once (st : AppState) (qId : Nat) (k : AnswerKey)
    (h : answered st.userAnswers qId = true) :
    handleAnswerClick st qId k = st ∧
    (handleAnswerClick st qId k).userAnswers.lookup qId
      = st.userAnswers.lookup qId := by
  unfold handleAnswerClick
  rw [if_pos h]
  exact ⟨rfl, rfl⟩

/-- C9 witness: with answer "B" recorded for question 1, a later click
choosing "C" on question 1 changes nothing. -/
theorem c9_witness :
    answered answeredState.userAnswers 1 = true ∧
    (handleAnswerClick answeredState 1 AnswerKey.C = answeredState ∧
     (handleAnswerClick answeredState 1 AnswerKey.C).userAnswers.lookup 1
       = answeredState.userAnswers.lookup 1) :=
  ⟨by decide, c9_answer_at_most_once answeredState 1 AnswerKey.C (by decide)⟩

/-- C3, evaluated at the failing input: the admissible event sequence in
which run 1 dispatches its master-note call, run 2 starts and stores its
own note, and then run 1's stale note resolves, ends with the stale run-1
note in the store — the source discards nothing, and the stale completion
overwrites the newer run's artifact. -/
theorem c3_stale_overwrite_evaluation :
    validRace staleTrace = true ∧
    raceRun (List.take 3 staleTrace)
      = { runsStarted := 2, masterNote := some freshNote, notesLoading := false } ∧
    (raceRun staleTrace).masterNote = some staleNote ∧
    staleNote ≠ freshNote :=
  ⟨rfl, rfl, rfl, by decide⟩

/-- C2 counterexample: in the run on readyState with summaryFailOutcomes —
extraction succeeds, the summary gateway call fails with a transport error,
and the other three derivations succeed — the summary artifact does NOT
remain null: generateSummary resolves with its fallback string and the
orchestrator stores it.  The other three artifacts are populated and the
error slot stays null, as the claim says. -/
theorem c2_counterexample :
    (handleGenerate readyState initLoading 0 summaryFailOutcomes).state.summary ≠ none ∧
    (handleGenerate readyState initLoading 0 summaryFailOutcomes).state.summary
      = some "Summary generation failed." ∧
    (handleGenerate readyState initLoading 0 summaryFailOutcomes).state.masterNote
      = some sampleNote ∧
    (handleGenerate readyState initLoading 0 summaryFailOutcomes).state.mcqBatches ≠ [] ∧
    (handleGenerate readyState initLoading 0 summaryFailOutcomes).state.flashcards
      = [sampleCard] ∧
    (handleGenerate readyState initLoading 0 summaryFailOutcomes).state.error = none ∧
    (handleGenerate readyState initLoading 0 summaryFailOutcomes).loading
      = clearedLoading :=
  ⟨by decide, by decide, by decide, by decide, by decide, by decide, by decide⟩

/-- C2 (amended): when extraction succeeds and the summary derivation's
gateway call fails while the other three derivations succeed, the summary
artifact is set to the non-null fallback string "Summary generation
failed.", the summary loading flag ends false, the other three artifacts
(masterNote, mcqBatches, flashcards) are populated, and the session-level
error stays null. -/
theorem c2_amended_summary_fallback (st0 : AppState) (ls0 : LoadingStates)
    (abi0 : Nat) (g : GatewayOutcomes) (j : ExtractionJson) (e : JsError)
    (n : MasterNote) (qs : List MCQQuestion) (cr : CoverageReport)
    (cards : List Flashcard)
    (hImgs : ¬ st0.images.length = 0)
    (hExt : g.extraction = Except.ok j)
    (hSum : g.summaryText = Except.error e)
    (hNote : g.note = Except.ok n)
    (hPr : g.practice = Except.ok { questions := some qs, coverageReport := some cr })
    (hFc : g.flashcardsData = Except.ok (some cards)) :
    (handleGenerate st0 ls0 abi0 g).state.summary
      = some "Summary generation failed." ∧
    (handleGenerate st0 ls0 abi0 g).loading.summary = false ∧
    (handleGenerate st0 ls0 abi0 g).state.masterNote = some n ∧
    (handleGenerate st0 ls0 abi0 g).state.mcqBatches
      = [{ batchNumber := 1, questions := qs, coverageReport := cr }] ∧
    (handleGenerate st0 ls0 abi0 g).state.flashcards = cards ∧
    (handleGenerate st0 ls0 abi0 g).state.error = none := by
  unfold handleGenerate
  rw [if_neg hImgs, hExt, hSum, hNote, hPr, hFc]
  simp [extractOCRAndSubject, generateMasterNote, generateSummary, generateMCQBatch,
    generateFlashcards, settleNote, settleSummary, settlePractice, settleFlashcards,
    resetForRun]

/-- C2 amended witness: the amended statement holds at the concrete
scenario of summaryFailOutcomes. -/
theorem c2_amended_witness :
    (¬ readyState.images.length = 0) ∧
    summaryFailOutcomes.extraction
      = Except.ok { ocrText := some "page text", subject := some Subject.MATH } ∧
    summaryFailOutcomes.summaryText
      = Except.error (JsError.withMessage "transport failure") ∧
    summaryFailOutcomes.note = Except.ok sampleNote ∧
    summaryFailOutcomes.practice
      = Except.ok { questions := some [sampleQuestion],
                    coverageReport := some sampleCoverage } ∧
    summaryFailOutcomes.flashcardsData = Except.ok (some [sampleCard]) ∧
    ((handleGenerate readyState initLoading 0 summaryFailOutcomes).state.summary
       = some "Summary generation failed." ∧
     (handleGenerate readyState initLoading 0 summaryFailOutcomes).loading.summary = false ∧
     (handleGenerate readyState initLoading 0 summaryFailOutcomes).state.masterNote
       = some sampleNote ∧
     (handleGenerate readyState initLoading 0 summaryFailOutcomes).state.mcqBatches
       = [{ batchNumber := 1, questions := [sampleQuestion],
            coverageReport := sampleCoverage }] ∧
     (handleGenerate readyState initLoading 0 summaryFailOutcomes).state.flashcards
       = [sampleCard] ∧
     (handleGenerate readyState initLoading 0 summaryFailOutcomes).state.error = none) :=
  ⟨by decide, rfl, rfl, rfl, rfl, rfl,
   c2_amended_summary_fallback readyState initLoading 0 summaryFailOutcomes
     { ocrText := some "page text", subject := some Subject.MATH }
     (JsError.withMessage "transport failure") sampleNote [sampleQuestion]
     sampleCoverage [sampleCard] (by decide) rfl rfl rfl rfl rfl⟩

/-- C4: a successful bonus extension returning text B turns an existing
layer3 = L into exactly L ++ "\n\n" ++ B — so L is a strict prefix of the
new value and nothing of it is truncated, altered or reordered — and
layers 1 and 2 are unchanged. -/
theorem c4_bonus_appends_layer3 (st : AppState) (ls : LoadingStates)
    (gw : Except JsError (Option String)) (mn : MasterNote) (B : String)
    (hOcr : st.ocrResult.isSome = true)
    (hMn : st.masterNote = some mn)
    (hGw : generateMoreBonus gw = Except.ok B) :
    (handleMoreBonus st ls gw).state.masterNote
      = some { layer1 := mn.layer1, layer2 := mn.layer2,
               layer3 := mn.layer3 ++ "\n\n" ++ B } ∧
    (∃ t : String, t ≠ "" ∧ mn.layer3 ++ "\n\n" ++ B = mn.layer3 ++ t) ∧
    (handleMoreBonus st ls gw).loading.moreBonus = false := by
  obtain ⟨pr, hpr⟩ := Option.isSome_iff_exists.mp hOcr
  refine ⟨?_, ⟨"\n\n" ++ B, ?_, by rw [String.append_assoc]⟩, ?_⟩
  · simp [handleMoreBonus, hpr, hMn, hGw]
  · intro hcontr
    have hlen := congrArg String.length hcontr
    rw [String.length_append] at hlen
    have h2 : ("\n\n" : String).length = 2 := rfl
    rw [h2] at hlen
    simp at hlen
  · simp [handleMoreBonus, hpr, hMn, hGw]

/-- C4 witness: appending the bonus text "more bonus" to the sample note's
layer3 in sessionState1. -/
theorem c4_witness :
    sessionState1.ocrResult.isSome = true ∧
    sessionState1.masterNote = some sampleNote ∧
    generateMoreBonus (Except.ok (some "more bonus")) = Except.ok "more bonus" ∧
    ((handleMoreBonus sessionState1 initLoading (Except.ok (some "more bonus"))).state.masterNote
       = some { layer1 := sampleNote.layer1, layer2 := sampleNote.layer2,
                layer3 := sampleNote.layer3 ++ "\n\n" ++ "more bonus" } ∧
     (∃ t : String, t ≠ "" ∧
        sampleNote.layer3 ++ "\n\n" ++ "more bonus" = sampleNote.layer3 ++ t) ∧
     (handleMoreBonus sessionState1 initLoading (Except.ok (some "more bonus"))).loading.moreBonus
       = false) :=
  ⟨by decide, rfl, rfl,
   c4_bonus_appends_layer3 sessionState1 initLoading (Except.ok (some "more bonus"))
     sampleNote "more bonus" (by decide) rfl rfl⟩

/-- C6: a batch extension whose result contains zero questions leaves the
state completely unchanged — same batch sequence (length and numbers), no
empty batch appended, no counter incremented, currentQuestionIndex,
examFinished and userAnswers untouched — and the condition is reported as
an informational alert, not through the session error (which, being part of
the unchanged state, keeps its prior value). -/
theorem c6_zero_questions_is_soft (st : AppState) (ls : LoadingStates)
    (abi : Nat) (gw : Except JsError MCQJson) (cr : CoverageReport)
    (hOcr : st.ocrResult.isSome = true)
    (hGw : generateMCQBatch gw = Except.ok { questions := [], coverageReport := cr }) :
    (handleGenerateMoreMCQs st ls abi gw).state = st ∧
    (handleGenerateMoreMCQs st ls abi gw).alert
      = some "No more unique questions could be generated for this text." ∧
    (handleGenerateMoreMCQs st ls abi gw).activeBatchIndex = abi ∧
    (handleGenerateMoreMCQs st ls abi gw).loading
      = { ls with morePractice := false } := by
  obtain ⟨pr, hpr⟩ := Option.isSome_iff_exists.mp hOcr
  simp [handleGenerateMoreMCQs, hpr, hGw]

/-- C6 witness: an extension over sessionState1 returning zero questions
changes nothing and reports the informational message. -/
theorem c6_witness :
    sessionState1.ocrResult.isSome = true ∧
    generateMCQBatch (Except.ok { questions := some [], coverageReport := some sampleCoverage })
      = Except.ok { questions := [], coverageReport := sampleCoverage } ∧
    ((handleGenerateMoreMCQs sessionState1 initLoading 0
        (Except.ok { questions := some [], coverageReport := some sampleCoverage })).state
       = sessionState1 ∧
     (handleGenerateMoreMCQs sessionState1 initLoading 0
        (Except.ok { questions := some [], coverageReport := some sampleCoverage })).alert
       = some "No more unique questions could be generated for this text." ∧
     (handleGenerateMoreMCQs sessionState1 initLoading 0
        (Except.ok { questions := some [], coverageReport := some sampleCoverage })).activeBatchIndex
       = 0 ∧
     (handleGenerateMoreMCQs sessionState1 initLoading 0
        (Except.ok { questions := some [], coverageReport := some sampleCoverage })).loading
       = { initLoading with morePractice := false }) :=
  ⟨by decide, rfl,
   c6_zero_questions_is_soft sessionState1 initLoading 0
     (Except.ok { questions := some [], coverageReport := some sampleCoverage })
     sampleCoverage (by decide) rfl⟩

/-- C7: a successful batch extension (at least one question) appends the
new batch to the sequence, resets currentQuestionIndex to 0, clears
examFinished, resets userAnswers to empty, and points the active batch
view index at the newly added batch. -/
theorem c7_success_appends_and_resets (st : AppState) (ls : LoadingStates)
    (abi : Nat) (gw : Except JsError MCQJson) (qs : List MCQQuestion)
    (cr : CoverageReport)
    (hOcr : st.ocrResult.isSome = true)
    (hGw : generateMCQBatch gw = Except.ok { questions := qs, coverageReport := cr })
    (hNe : ¬ qs.length = 0) :
    (handleGenerateMoreMCQs st ls abi gw).state.mcqBatches
      = st.mcqBatches ++ [{ batchNumber := st.mcqBatches.length + 1,
                            questions := qs, coverageReport := cr }] ∧
    (handleGenerateMoreMCQs st ls abi gw).state.currentQuestionIndex = 0 ∧
    (handleGenerateMoreMCQs st ls abi gw).state.examFinished = false ∧
    (handleGenerateMoreMCQs st ls abi gw).state.userAnswers = [] ∧
    (handleGenerateMoreMCQs st ls abi gw).activeBatchIndex = st.mcqBatches.length ∧
    (handleGenerateMoreMCQs st ls abi gw).state.mcqBatches.get?
        ((handleGenerateMoreMCQs st ls abi gw).activeBatchIndex)
      = some { batchNumber := st.mcqBatches.length + 1, questions := qs,
               coverageReport := cr } := by
  obtain ⟨pr, hpr⟩ := Option.isSome_iff_exists.mp hOcr
  have hpos : 0 < qs.length := Nat.pos_of_ne_zero hNe
  simp [handleGenerateMoreMCQs, hpr, hGw, hpos, List.get?_eq_getElem?,
    List.getElem?_concat_length]

/-- C7 witness: extending sessionState1 (one existing batch) with a batch
containing one question appends batch number 2 and resets the exam state. -/
theorem c7_witness :
    sessionState1.ocrResult.isSome = true ∧
    generateMCQBatch (Except.ok { questions := some [sampleQuestion2],
                                  coverageReport := some sampleCoverage })
      = Except.ok { questions := [sampleQuestion2], coverageReport := sampleCoverage } ∧
    (¬ ([sampleQuestion2] : List MCQQuestion).length = 0) ∧
    ((handleGenerateMoreMCQs sessionState1 initLoading 0
        (Except.ok { questions := some [sampleQuestion2],
                     coverageReport := some sampleCoverage })).state.mcqBatches
       = sessionState1.mcqBatches ++
         [{ batchNumber := sessionState1.mcqBatches.length + 1,
            questions := [sampleQuestion2], coverageReport := sampleCoverage }] ∧
     (handleGenerateMoreMCQs sessionState1 initLoading 0
        (Except.ok { questions := some [sampleQuestion2],
                     coverageReport := some sampleCoverage })).state.currentQuestionIndex = 0 ∧
     (handleGenerateMoreMCQs sessionState1 initLoading 0
        (Except.ok { questions := some [sampleQuestion2],
                     coverageReport := some sampleCoverage })).state.examFinished = false ∧
     (handleGenerateMoreMCQs sessionState1 initLoading 0
        (Except.ok { questions := some [sampleQuestion2],
                     coverageReport := some sampleCoverage })).state.userAnswers = [] ∧
     (handleGenerateMoreMCQs sessionState1 initLoading 0
        (Except.ok { questions := some [sampleQuestion2],
                     coverageReport := some sampleCoverage })).activeBatchIndex
       = sessionState1.mcqBatches.length ∧
     (handleGenerateMoreMCQs sessionState1 initLoading 0
        (Except.ok { questions := some [sampleQuestion2],
                     coverageReport := some sampleCoverage })).state.mcqBatches.get?
         ((handleGenerateMoreMCQs sessionState1 initLoading 0
             (Except.ok { questions := some [sampleQuestion2],
                          coverageReport := some sampleCoverage })).activeBatchIndex)
       = some { batchNumber := sessionState1.mcqBatches.length + 1,
                questions := [sampleQuestion2], coverageReport := sampleCoverage }) :=
  ⟨by decide, rfl, by decide,
   c7_success_appends_and_resets sessionState1 initLoading 0
     (Except.ok { questions := some [sampleQuestion2],
                  coverageReport := some sampleCoverage })
     [sampleQuestion2] sampleCoverage (by decide) rfl (by decide)⟩

/-- The batch-numbering invariant: numbers are exactly 1, 2, ..., count in
order. -/
def batchNumbersOk (bs : List MCQBatch) : Prop :=
  batchNumbers bs = List.range' 1 bs.length

/-- An empty batch list satisfies the numbering invariant. -/
theorem batchNumbersOk_nil : batchNumbersOk [] := rfl

/-- A single batch numbered 1 satisfies the numbering invariant. -/
theorem batchNumbersOk_single (qs : List MCQQuestion) (cr : CoverageReport) :
    batchNumbersOk [{ batchNumber := 1, questions := qs, coverageReport := cr }] := rfl

/-- Appending a batch numbered one past the count keeps the numbering
invariant. -/
theorem batchNumbersOk_append (bs : List MCQBatch) (qs : List MCQQuestion)
    (cr : CoverageReport) (h : batchNumbersOk bs) :
    batchNumbersOk (bs ++ [{ batchNumber := bs.length + 1, questions := qs,
                             coverageReport := cr }]) := by
  unfold batchNumbersOk batchNumbers at h ⊢
  rw [List.map_append, h, List.length_append]
  simp [List.range'_concat, Nat.add_comm]

/-- Every step of the App component preserves the numbering invariant. -/
theorem step_preserves_batchNumbersOk (s : Session) (op : SessionOp)
    (h : batchNumbersOk s.state.mcqBatches) :
    batchNumbersOk (step s op).state.mcqBatches := by
  cases op with
  | generate g =>
      show batchNumbersOk
        (handleGenerate s.state s.loading s.activeBatchIndex g).state.mcqBatches
      rcases handleGenerate_mcqBatches s.state s.loading s.activeBatchIndex g with
        h1 | h1 | ⟨qs, cr, h1⟩
      · rw [h1]; exact h
      · rw [h1]; exact batchNumbersOk_nil
      · rw [h1]; exact batchNumbersOk_single qs cr
  | moreMCQs gw =>
      show batchNumbersOk
        (handleGenerateMoreMCQs s.state s.loading s.activeBatchIndex gw).state.mcqBatches
      rcases handleGenerateMoreMCQs_mcqBatches s.state s.loading s.activeBatchIndex gw with
        h1 | ⟨qs, cr, h1⟩
      · rw [h1]; exact h
      · rw [h1]; exact batchNumbersOk_append s.state.mcqBatches qs cr h
  | moreBonus gw =>
      show batchNumbersOk (handleMoreBonus s.state s.loading gw).state.mcqBatches
      rw [handleMoreBonus_mcqBatches]; exact h
  | upload files ok =>
      show batchNumbersOk (handleFileUpload s.state files ok).state.mcqBatches
      rw [handleFileUpload_mcqBatches]; exact h
  | removeImage i => exact h
  | answerClick q k =>
      show batchNumbersOk (handleAnswerClick s.state q k).mcqBatches
      rw [handleAnswerClick_mcqBatches]; exact h
  | selectBatch i => exact h
  | startNew => exact h
  | clearImages => exact h
  | nextQuestion => simp only [step]; split <;> exact h
  | prevQuestion => simp only [step]; split <;> exact h
  | finishExam => exact h
  | setTab t => exact h
  | toggleLanguage => exact h

/-- C5: in every reachable session state the batch sequence's batchNumbers
are exactly 1, 2, ..., count in order (each created batch got
1 + count(existing batches), the first batch of a run is numbered 1, and no
number is reused, skipped or renumbered, regardless of extension
failures), and a batch-extension step is append-only: the prior batch
sequence is a prefix of the new one. -/
theorem c5_batch_numbering_invariant (ops : List SessionOp)
    (gw : Except JsError MCQJson) :
    batchNumbers (runSession ops).state.mcqBatches
      = List.range' 1 (runSession ops).state.mcqBatches.length ∧
    ∃ t, (step (runSession ops) (SessionOp.moreMCQs gw)).state.mcqBatches
        = (runSession ops).state.mcqBatches ++ t := by
  constructor
  · exact foldl_step_inv (fun s => batchNumbersOk s.state.mcqBatches)
      step_preserves_batchNumbersOk ops initSession batchNumbersOk_nil
  · show ∃ t, (handleGenerateMoreMCQs (runSession ops).state (runSession ops).loading
        (runSession ops).activeBatchIndex gw).state.mcqBatches
        = (runSession ops).state.mcqBatches ++ t
    rcases handleGenerateMoreMCQs_mcqBatches (runSession ops).state
        (runSession ops).loading (runSession ops).activeBatchIndex gw with
      h1 | ⟨qs, cr, h1⟩
    · exact ⟨[], by rw [h1, List.append_nil]⟩
    · exact ⟨_, h1⟩

/-- A slice to a nonnegative bound has at most that many elements. -/
theorem jsSliceTo_length_le (xs : List α) (n : Nat) :
    (jsSliceTo xs ((n : Nat) : Int)).length ≤ n := by
  unfold jsSliceTo
  rw [if_neg (by omega)]
  simp [List.length_take]

/-- An upload keeps the image count within the 5-image bound. -/
theorem handleFileUpload_images_le (st : AppState) (files : List String)
    (ok : Bool) (h : st.images.length ≤ 5) :
    (handleFileUpload st files ok).state.images.length ≤ 5 := by
  unfold handleFileUpload
  dsimp only
  by_cases hf : files.length = 0
  · rw [if_pos hf]; exact h
  · rw [if_neg hf]
    by_cases hguard :
        (jsSliceTo files (5 - (st.images.length : Int))).length = 0 ∧
          st.images.length ≥ 5
    · rw [if_pos hguard]; exact h
    · rw [if_neg hguard]
      by_cases hok : ok = true
      · rw [if_pos hok]
        have hlt : st.images.length < 5 := by
          rcases Nat.lt_or_ge st.images.length 5 with h5 | h5
          · exact h5
          · exfalso
            apply hguard
            have heq : st.images.length = 5 := Nat.le_antisymm h h5
            constructor
            · rw [heq]
              norm_num [jsSliceTo]
            · omega
        have hcast : (5 - (st.images.length : Int))
            = (((5 - st.images.length : Nat) : Nat) : Int) := by omega
        have hle := jsSliceTo_length_le files (5 - st.images.length)
        show (st.images ++ jsSliceTo files (5 - (st.images.length : Int))).length ≤ 5
        rw [List.length_append, hcast]
        omega
      · rw [if_neg hok]
        exact h

/-- Every step of the App component keeps the image count within 5. -/
theorem step_preserves_images_le (s : Session) (op : SessionOp)
    (h : s.state.images.length ≤ 5) :
    (step s op).state.images.length ≤ 5 := by
  cases op with
  | generate g =>
      show (handleGenerate s.state s.loading s.activeBatchIndex g).state.images.length ≤ 5
      rw [handleGenerate_images]; exact h
  | moreMCQs gw =>
      show (handleGenerateMoreMCQs s.state s.loading
        s.activeBatchIndex gw).state.images.length ≤ 5
      rw [handleGenerateMoreMCQs_images]; exact h
  | moreBonus gw =>
      show (handleMoreBonus s.state s.loading gw).state.images.length ≤ 5
      rw [handleMoreBonus_images]; exact h
  | upload files ok => exact handleFileUpload_images_le s.state files ok h
  | removeImage i =>
      show (s.state.images.eraseIdx i).length ≤ 5
      exact Nat.le_trans (List.length_eraseIdx_le s.state.images i) h
  | answerClick q k =>
      show (handleAnswerClick s.state q k).images.length ≤ 5
      rw [handleAnswerClick_images]; exact h
  | selectBatch i => exact h
  | startNew => exact Nat.zero_le 5
  | clearImages => exact Nat.zero_le 5
  | nextQuestion => simp only [step]; split <;> exact h
  | prevQuestion => simp only [step]; split <;> exact h
  | finishExam => exact h
  | setTab t => exact h
  | toggleLanguage => exact h

/-- C8: in every reachable session state the upload set holds at most 5
images; a nonempty selection arriving at capacity is a no-op with the
reported max-reached condition; and a selection arriving below capacity is
truncated to the remaining slots rather than rejected wholesale. -/
theorem c8_upload_bound (ops : List SessionOp) (stFull stRoom : AppState)
    (files1 files2 : List String) (ok : Bool)
    (h1 : ¬ files1.length = 0) (hFull : stFull.images.length = 5)
    (h2 : ¬ files2.length = 0) (hRoom : stRoom.images.length < 5) :
    (runSession ops).state.images.length ≤ 5 ∧
    handleFileUpload stFull files1 ok
      = { state := stFull, alert := some "Maximum 5 photos allowed." } ∧
    (handleFileUpload stRoom files2 true).state.images.length
      = stRoom.images.length + min (5 - stRoom.images.length) files2.length := by
  refine ⟨?_, ?_, ?_⟩
  · exact foldl_step_inv (fun s => s.state.images.length ≤ 5)
      step_preserves_images_le ops initSession (Nat.zero_le 5)
  · unfold handleFileUpload
    dsimp only
    rw [if_neg h1, if_pos]
    constructor
    · rw [hFull]
      norm_num [jsSliceTo]
    · omega
  · unfold handleFileUpload
    dsimp only
    rw [if_neg h2, if_neg, if_pos rfl]
    · have hcast : (5 - (stRoom.images.length : Int))
          = (((5 - stRoom.images.length : Nat) : Nat) : Int) := by omega
      rw [hcast]
      show (stRoom.images ++ jsSliceTo files2 ((5 - stRoom.images.length : Nat) : Int)).length
        = stRoom.images.length + min (5 - stRoom.images.length) files2.length
      rw [List.length_append]
      congr 1
      unfold jsSliceTo
      rw [if_neg (by omega)]
      simp [List.length_take]
    · intro hcontr
      omega

/-- C8 witness: at capacity (5 images) an upload of one more file is a
no-op with the max-reached alert; below capacity (1 image) an upload of 5
files is truncated to the 4 remaining slots. -/
theorem c8_witness :
    (¬ (["x"] : List String).length = 0) ∧
    fullImagesState.images.length = 5 ∧
    (¬ (["a", "b", "c", "d", "e"] : List String).length = 0) ∧
    readyState.images.length < 5 ∧
    ((runSession []).state.images.length ≤ 5 ∧
     handleFileUpload fullImagesState ["x"] true
       = { state := fullImagesState, alert := some "Maximum 5 photos allowed." } ∧
     (handleFileUpload readyState ["a", "b", "c", "d", "e"] true).state.images.length
       = readyState.images.length +
           min (5 - readyState.images.length) (["a", "b", "c", "d", "e"] : List String).length) :=
  ⟨by decide, by decide, by decide, by decide,
   c8_upload_bound [] fullImagesState readyState ["x"] ["a", "b", "c", "d", "e"] true
     (by decide) (by decide) (by decide) (by decide)⟩
